import Mathlib

/-!
A shallow embedding of the pqai-index repository (src/core/indexer.py,
src/core/storage.py, src/core/indexes.py, src/main.py) and proofs about it.

Modelling conventions:
* float32 vector entries and distances are modelled as rational numbers
  (`Rat`): the claims under study concern control flow, validation, caching
  and stable sorting by score, never floating-point rounding, so an exact
  ordered field is a faithful carrier for comparisons;
* Python exceptions are modelled by `Except PyError` results;
* the opaque `faiss` / `annoy` native handles are modelled as function-valued
  fields (the "vector backend" capability of the spec);
* the file system is modelled as the set of (folder, filename) pairs that
  exist on disk; file contents of backend binary files are not modelled
  (reading an existing well-formed file succeeds, a missing file raises).
-/

namespace Pqai

/-- Python runtime errors arising on the embedded code paths. -/
inductive PyError where
  | assertionError
  | attributeError
  | typeError
  | fileNotFoundError
  deriving DecidableEq

/-! ## src/core/indexer.py : FaissIndexCreator -/

/-- The `FaissIndexCreator` object state after `__init__`: the instance dict
holds exactly the two attributes assigned there. -/
structure FaissIndexCreator where
  _factory_string : String
  _normalize : Bool
  deriving DecidableEq

/-- A value read off a `FaissIndexCreator` attribute. -/
inductive PyAttr where
  | str (s : String)
  | bool (b : Bool)
  deriving DecidableEq

/-- Python attribute lookup on a `FaissIndexCreator` instance: `__init__`
stores only `_factory_string` and `_normalize` in the instance dict and the
class dict holds only methods, so any other attribute name raises
`AttributeError`.  In particular `self.normalize` (read at
src/core/indexer.py line 54) raises. -/
def FaissIndexCreator.getattr (c : FaissIndexCreator) (a : String) :
    Except PyError PyAttr :=
  if a = "_factory_string" then .ok (.str c._factory_string)
  else if a = "_normalize" then .ok (.bool c._normalize)
  else .error .attributeError

/-- The JSON metadata object assembled by `FaissIndexCreator.create`
(src/core/indexer.py lines 51-58). -/
structure IndexMetadata where
  name : String
  factory_string : String
  normalized : Bool
  dims : Nat
  item_count : Nat
  labels : List String
  deriving DecidableEq

/-- A file written to disk by `FaissIndexCreator._save`. -/
inductive FileWrite where
  | faissFile (path : String)
  | metadataFile (path : String) (config : IndexMetadata)
  deriving DecidableEq

deriving instance DecidableEq for Except

/-- Result of a call to `FaissIndexCreator.create`: the Python return/raise
outcome together with the list of files the call wrote to disk. -/
structure CreateOutcome where
  result : Except PyError Unit
  writes : List FileWrite
  deriving DecidableEq

/-- The first three asserts of `create` (lines 38-40): `vectors` is a 2-D
float32 `np.ndarray`.  In the embedding the entries being float32 scalars is
carried by the type, and being a 2-D array of nested rows is rectangularity
of the row list. -/
def isFloat32Matrix (vectors : List (List Rat)) : Bool :=
  vectors.all (fun r => r.length = (vectors.headD []).length)

set_option linter.unusedVariables false in
/-- `FaissIndexCreator.create` (src/core/indexer.py lines 24-59), followed by
`_save` (lines 61-66) on the non-raising path.  Control flow in source order:
the four asserts; `faiss.index_factory`, optional `normalize_L2`, `train` and
`add` (backend calls that write no files); the `config` dict construction,
whose `"normalized": self.normalize` entry performs the attribute lookup
modelled by `getattr`; finally `_save` writes the `.faiss` and
`.metadata.json` files. -/
def FaissIndexCreator.create (c : FaissIndexCreator) (name : String)
    (vectors : List (List Rat)) (labels : List String)
    (n_train : Option Nat) (save_dir : String) : CreateOutcome :=
  if ¬ isFloat32Matrix vectors then ⟨.error .assertionError, []⟩
  else if vectors.length ≠ labels.length then ⟨.error .assertionError, []⟩
  else
    match c.getattr "normalize" with
    | .error e => ⟨.error e, []⟩
    | .ok v =>
      let config : IndexMetadata :=
        { name := name
          factory_string := c._factory_string
          normalized := match v with | .bool b => b | .str _ => true
          dims := (vectors.headD []).length
          item_count := vectors.length
          labels := labels }
      ⟨.ok (), [.faissFile (save_dir ++ "/" ++ name ++ ".faiss"),
                .metadataFile (save_dir ++ "/" ++ name ++ ".metadata.json") config]⟩

/-! ## src/core/storage.py : IndexStorage -/

/-- The file system, as the set of (folder, filename) pairs existing on
disk.  `os.path.exists(f"{folder}/{name}")` and `os.scandir(folder)` are the
only file-system queries the storage layer performs. -/
abbrev FileSys := List (String × String)

/-- `os.path.exists` for a file `name` inside `folder`. -/
def fsHas (fs : FileSys) (folder name : String) : Bool :=
  fs.contains (folder, name)

/-- Names returned by `os.scandir(folder)` (src/core/storage.py line 40). -/
def scandirNames (fs : FileSys) (folder : String) : List String :=
  (fs.filter (fun e => e.1 = folder)).map (fun e => e.2)

/-- Python truthiness of an environment-variable string, as tested by
`if USE_FAISS_INDEXES:` (src/core/storage.py lines 42 and 44):
`os.environ[...]` is always a `str`, and a `str` is truthy exactly when it
is non-empty — the string `"0"` is truthy. -/
def pyTruthy (s : String) : Bool := !s.isEmpty

/-- `str.endswith(pat)`, computed on the character lists.  (Lean's own
`String.endsWith` is not used because its position arithmetic does not
reduce inside the kernel.) -/
def strEndsWith (s pat : String) : Bool :=
  pat.data.isSuffixOf s.data

/-- `str.startswith(pat)`, computed on the character lists. -/
def strStartsWith (s pat : String) : Bool :=
  pat.data.isPrefixOf s.data

/-- `str.split(".")` on the character list: Python split with a one-character
separator — the empty string yields `[""]`, and separators at the ends yield
empty fields. -/
def splitOnDot : List Char → List (List Char)
  | [] => [[]]
  | c :: cs =>
    if c = '.' then [] :: splitOnDot cs
    else
      match splitOnDot cs with
      | [] => [[c]]
      | g :: gs => (c :: g) :: gs

/-- `".".join(groups)` on character lists. -/
def joinDot : List (List Char) → List Char
  | [] => []
  | [g] => g
  | g :: gs => g ++ '.' :: joinDot gs

/-- `".".join(f.name.split(".")[:-1])` (src/core/storage.py line 46). -/
def stripIndexExt (name : String) : String :=
  ⟨joinDot ((splitOnDot name.data).dropLast)⟩

/-- The `index_files` list of `IndexStorage._discover_indexes`
(src/core/storage.py lines 41-45): `.faiss` files are appended when
`USE_FAISS_INDEXES` is truthy, then `.ann` files when `USE_ANNOY_INDEXES`
is truthy. -/
def indexFilesOf (files : List String) (useFaiss useAnnoy : String) :
    List String :=
  (if pyTruthy useFaiss then files.filter (fun f => strEndsWith f ".faiss") else [])
    ++ (if pyTruthy useAnnoy then files.filter (fun f => strEndsWith f ".ann") else [])

/-- `IndexStorage._discover_indexes` (src/core/storage.py lines 34-47):
strip the extension from each considered file and collect the results into a
set (modelled as first-occurrence deduplication). -/
def discoverIndexes (files : List String) (useFaiss useAnnoy : String) :
    List String :=
  ((indexFilesOf files useFaiss useAnnoy).map stripIndexExt).dedup

/-- An `IndexStorage` instance: its instance dict holds `_folder` and the
`_available` identifier set computed by `_discover_indexes` in `__init__`. -/
structure IndexStorage where
  _folder : String
  _available : List String

/-- `IndexStorage.__init__` (src/core/storage.py lines 25-32). -/
def IndexStorage.init (fs : FileSys) (useFaiss useAnnoy folder : String) :
    IndexStorage :=
  ⟨folder, discoverIndexes (scandirNames fs folder) useFaiss useAnnoy⟩

/-- The mutable process-wide state touched by the storage layer.
`IndexStorage.cache` is a class attribute (src/core/storage.py line 22);
`self.cache[index_id] = index` performs item assignment on that single
class-level dict object, so there is one cache for the whole process, shared
by every `IndexStorage` instance.  Loading an index from disk constructs a
new Python `Index` object; object identity is modelled by numbering each
constructed object with the `fresh` counter. -/
structure PState where
  fresh : Nat
  cache : List (String × Nat)
  deriving DecidableEq

/-- Dict lookup in the cache (`index_id in self.cache` /
`self.cache.get(index_id)`); the most recent assignment to a key wins. -/
def cacheLookup (cache : List (String × Nat)) (id : String) : Option Nat :=
  (cache.find? (fun e => e.1 == id)).map (fun e => e.2)

/-- `IndexStorage._get_from_disk` (src/core/storage.py lines 68-82), with the
file chosen by `_get_index_file_path` (lines 84-88) inlined: the `.faiss`
path is picked when that file exists, otherwise the `.ann` path.  The chosen
path ends in `"faiss"` exactly in the first case, so:
* `.faiss` exists: `FaissIndexReader` reads the backend file and then the
  sibling `<id>.metadata.json` label file (line 72); a missing label file
  raises `FileNotFoundError`, otherwise a new index object is constructed
  and cached via `_cache_index` (lines 90-92);
* `.faiss` missing: line 76 evaluates `AnnoyIndexReader()`, but
  `AnnoyIndexReader.__init__` (src/core/indexes.py lines 51-59) requires the
  positional arguments `dims` and `metric`, so the call raises `TypeError`
  before any file is touched. -/
def _get_from_disk (fs : FileSys) (folder id : String) (s : PState) :
    Except PyError (Nat × PState) :=
  if fsHas fs folder (id ++ ".faiss") then
    if fsHas fs folder (id ++ ".metadata.json") then
      .ok (s.fresh, ⟨s.fresh + 1, (id, s.fresh) :: s.cache⟩)
    else .error .fileNotFoundError
  else .error .typeError

/-- `IndexStorage._get_one_index` (src/core/storage.py lines 62-66). -/
def _get_one_index (fs : FileSys) (folder id : String) (s : PState) :
    Except PyError (Nat × PState) :=
  match cacheLookup s.cache id with
  | some inst => .ok (inst, s)
  | none => _get_from_disk fs folder id s

/-- The list comprehension `[self._get_one_index(i) for i in index_ids]`
(src/core/storage.py line 59): indexes are fetched left to right, the cache
updates of one fetch being visible to the next, and the first raised
exception aborts the whole comprehension. -/
def getManyIndexes (fs : FileSys) (folder : String) :
    List String → PState → Except PyError (List Nat × PState)
  | [], s => .ok ([], s)
  | id :: rest, s =>
    match _get_one_index fs folder id s with
    | .error e => .error e
    | .ok (inst, s1) =>
      match getManyIndexes fs folder rest s1 with
      | .error e => .error e
      | .ok (insts, s2) => .ok (inst :: insts, s2)

/-- `IndexStorage.get` (src/core/storage.py lines 49-60): resolve a name or
name-prefix to every available identifier that starts with it, fetching each
through `_get_one_index`. -/
def IndexStorage.get (fs : FileSys) (st : IndexStorage) (id : String)
    (s : PState) : Except PyError (List Nat × PState) :=
  getManyIndexes fs st._folder (st._available.filter (fun i => strStartsWith i id)) s

/-- An identifier that `_get_one_index` can fetch without raising in state
`s`: it is already cached, or its `.faiss` backend file and
`.metadata.json` label file both exist in the storage folder. -/
def loadableId (fs : FileSys) (folder : String) (s : PState) (id : String) :
    Bool :=
  (cacheLookup s.cache id).isSome ||
    (fsHas fs folder (id ++ ".faiss") && fsHas fs folder (id ++ ".metadata.json"))

/-! ## src/core/indexes.py : FaissIndex (serve side) and src/main.py : search -/

/-- The opaque trained `faiss` index handle held by a `FaissIndex` wrapper:
its trained dimensionality `d`, and its `search` capability.  `rawSearch`
models `self._index.search(Q, n)` composed with the `_preprocess`
normalization of the query (both are float computations internal to the
backend capability); it returns the internal-id/distance rows for the single
query.  Nothing in the backend interface checks the query length against
`d` — `faiss` receives whatever array it is given. -/
structure FaissBackend where
  d : Nat
  rawSearch : List Rat → Nat → List (Int × Rat)

/-- A served `FaissIndex` object (src/core/indexes.py lines 197-230):
backend handle plus the label resolver `items.__getitem__` built from the
metadata JSON. -/
structure FaissIndex where
  name : String
  backend : FaissBackend
  resolveLabel : Int → String

/-- `FaissIndex.search` (src/core/indexes.py lines 216-230): preprocess the
query, run the backend search, resolve internal ids to labels and pair them
with the distances.  The method performs no validation of `qvec` — in
particular it never compares `qvec`'s length with the backend's trained
dimensionality. -/
def FaissIndex.search (idx : FaissIndex) (qvec : List Rat) (n : Nat) :
    List (String × Rat) :=
  (idx.backend.rawSearch qvec n).map (fun r => (idx.resolveLabel r.1, r.2))

/-- `functools.reduce(operator.add, ls)` with no initializer
(src/main.py lines 30 and 45): raises `TypeError` on an empty sequence,
otherwise left-folds `+` (list concatenation) over it. -/
def reduceAdd {α : Type} (ls : List (List α)) : Except PyError (List α) :=
  match ls with
  | [] => .error .typeError
  | h :: t => .ok (t.foldl (fun acc l => acc ++ l) h)

/-- The comparison performed by `results.sort(key=lambda r: r[1])`:
ascending by the score component. -/
def scoreLE (a b : String × Rat) : Bool := a.2 ≤ b.2

/-- The concatenation of the per-index result lists produced inside
`search` (src/main.py line 45): every target index is queried with the same
`qvec` and per-index count `n`. -/
def allCandidates (targets : List FaissIndex) (qvec : List Rat) (n : Nat) :
    List (String × Rat) :=
  (targets.map (fun idx => FaissIndex.search idx qvec n)).flatten

/-- The vector-mode body of `search` (src/main.py lines 38-47) after the
query JSON has been parsed and the target indexes resolved:
`reduce(add, per_index_results)`, then an in-place stable ascending sort by
score (Python list.sort is stable; modelled by `List.mergeSort`, which is
also stable), then truncation to the first `n` results. -/
def searchVector (targets : List FaissIndex) (qvec : List Rat) (n : Nat) :
    Except PyError (List (String × Rat)) :=
  match reduceAdd (targets.map (fun idx => FaissIndex.search idx qvec n)) with
  | .error e => .error e
  | .ok results => .ok ((results.mergeSort scoreLE).take n)

/-- The vector-mode `search` endpoint (src/main.py lines 38-47) when the
`index` query parameter is given: the target indexes are
`index_storage.get(index)`, and each resolved index object is queried.
`instSearch` interprets a resolved index object (identified by its instance
number) as its `search` method. -/
def serveVectorQuery (fs : FileSys) (st : IndexStorage)
    (instSearch : Nat → List Rat → Nat → List (String × Rat))
    (id : String) (qvec : List Rat) (n : Nat) (s : PState) :
    Except PyError (List (String × Rat) × PState) :=
  match IndexStorage.get fs st id s with
  | .error e => .error e
  | .ok (insts, s1) =>
    match reduceAdd (insts.map (fun i => instSearch i qvec n)) with
    | .error e => .error e
    | .ok results => .ok ((results.mergeSort scoreLE).take n, s1)

/-! ## Helper lemmas -/

theorem foldl_append_eq_flatten {α : Type} (t : List (List α)) (h : List α) :
    t.foldl (fun acc l => acc ++ l) h = h ++ t.flatten := by
  induction t generalizing h with
  | nil => simp
  | cons a t ih => simp [ih]

theorem reduceAdd_ok_flatten {α : Type} (ls : List (List α)) (h : ls ≠ []) :
    reduceAdd ls = .ok ls.flatten := by
  cases ls with
  | nil => exact absurd rfl h
  | cons a t => simp [reduceAdd, foldl_append_eq_flatten]

theorem scoreLE_trans (a b c : String × Rat)
    (h1 : scoreLE a b) (h2 : scoreLE b c) : scoreLE a c := by
  simp only [scoreLE, decide_eq_true_eq] at h1 h2 ⊢
  exact le_trans h1 h2

theorem scoreLE_total (a b : String × Rat) : scoreLE a b || scoreLE b a := by
  simp only [scoreLE, Bool.or_eq_true, decide_eq_true_eq]
  exact le_total a.2 b.2

theorem getOne_ok_lookup {fs : FileSys} {folder id : String} {s : PState}
    {inst : Nat} {s1 : PState}
    (h : _get_one_index fs folder id s = .ok (inst, s1)) :
    cacheLookup s1.cache id = some inst := by
  unfold _get_one_index at h
  split at h
  · rename_i v hc
    simp only [Except.ok.injEq, Prod.mk.injEq] at h
    obtain ⟨rfl, rfl⟩ := h
    exact hc
  · unfold _get_from_disk at h
    split at h
    · split at h
      · simp only [Except.ok.injEq, Prod.mk.injEq] at h
        obtain ⟨rfl, rfl⟩ := h
        simp [cacheLookup, List.find?]
      · simp at h
    · simp at h

theorem getOne_state_cases {fs : FileSys} {folder id : String} {s : PState}
    {inst : Nat} {s1 : PState}
    (h : _get_one_index fs folder id s = .ok (inst, s1)) :
    s1 = s ∨ s1 = ⟨s.fresh + 1, (id, s.fresh) :: s.cache⟩ := by
  unfold _get_one_index at h
  split at h
  · simp only [Except.ok.injEq, Prod.mk.injEq] at h
    exact Or.inl h.2.symm
  · unfold _get_from_disk at h
    split at h
    · split at h
      · simp only [Except.ok.injEq, Prod.mk.injEq] at h
        exact Or.inr h.2.symm
      · simp at h
    · simp at h

theorem cacheLookup_cons (a : String) (v : Nat) (c : List (String × Nat))
    (id : String) :
    cacheLookup ((a, v) :: c) id =
      if a == id then some v else cacheLookup c id := by
  simp only [cacheLookup, List.find?]
  by_cases hav : (a == id) = true
  · simp [hav]
  · simp [hav]

theorem getOne_loadable_mono {fs : FileSys} {folder id : String} {s : PState}
    {inst : Nat} {s1 : PState}
    (h : _get_one_index fs folder id s = .ok (inst, s1)) (id2 : String)
    (h2 : loadableId fs folder s id2 = true) :
    loadableId fs folder s1 id2 = true := by
  rcases getOne_state_cases h with rfl | rfl
  · exact h2
  · unfold loadableId at h2 ⊢
    simp only [Bool.or_eq_true] at h2 ⊢
    rcases h2 with h2 | h2
    · left
      rw [cacheLookup_cons]
      by_cases hid : (id == id2) = true
      · simp [hid]
      · simp only [hid, if_neg]
        simpa using h2
    · exact Or.inr h2

theorem getOne_ok_of_loadable {fs : FileSys} {folder : String} {s : PState}
    {id : String} (h : loadableId fs folder s id = true) :
    ∃ inst s1, _get_one_index fs folder id s = .ok (inst, s1) := by
  unfold loadableId at h
  unfold _get_one_index
  cases hc : cacheLookup s.cache id with
  | some v => exact ⟨v, s, rfl⟩
  | none =>
    rw [hc] at h
    simp only [Option.isSome_none, Bool.false_or, Bool.and_eq_true] at h
    unfold _get_from_disk
    rw [if_pos h.1, if_pos h.2]
    exact ⟨s.fresh, _, rfl⟩

theorem getMany_ok_of_loadable (fs : FileSys) (folder : String) :
    ∀ (l : List String) (s : PState),
      (∀ id ∈ l, loadableId fs folder s id = true) →
      ∃ insts s2, getManyIndexes fs folder l s = .ok (insts, s2) ∧
        insts.length = l.length
  | [], s, _ => ⟨[], s, rfl, rfl⟩
  | id :: rest, s, h => by
    obtain ⟨inst, s1, h1⟩ := getOne_ok_of_loadable (h id (List.mem_cons_self _ _))
    have hrest : ∀ id2 ∈ rest, loadableId fs folder s1 id2 = true :=
      fun id2 hm => getOne_loadable_mono h1 id2 (h id2 (List.mem_cons_of_mem _ hm))
    obtain ⟨insts, s2, h2, hlen⟩ := getMany_ok_of_loadable fs folder rest s1 hrest
    exact ⟨inst :: insts, s2, by simp [getManyIndexes, h1, h2], by simp [hlen]⟩

/-! ## Claim theorems -/

/-- Claim C1 (code-bug evidence): on a valid input — a non-empty rectangular
float32 matrix and a label list of equal length — `FaissIndexCreator.create`
does not succeed and persists nothing: the `"normalized": self.normalize`
config entry raises `AttributeError` (the attribute set in `__init__` is
`_normalize`), aborting the call before `_save`, so zero files are
written. -/
theorem create_valid_input_raises_attributeError :
    isFloat32Matrix [[(1 : Rat), 2], [3, 4]] = true ∧
    ([[(1 : Rat), 2], [3, 4]] : List (List Rat)) ≠ [] ∧
    ([[(1 : Rat), 2], [3, 4]] : List (List Rat)).length = ["a", "b"].length ∧
    FaissIndexCreator.create ⟨"OPQ16_64,HNSW32", true⟩ "test_index"
        [[1, 2], [3, 4]] ["a", "b"] none "/tmp" =
      ⟨.error .attributeError, []⟩ := by
  refine ⟨rfl, by decide, rfl, ?_⟩
  decide

/-- Claim C7: whenever the vector count and the label count differ,
`FaissIndexCreator.create` fails with a validation error (the `assert` on
line 41 of src/core/indexer.py) and writes zero files. -/
theorem create_length_mismatch_fails_without_writes (c : FaissIndexCreator)
    (name : String) (vectors : List (List Rat)) (labels : List String)
    (n_train : Option Nat) (save_dir : String)
    (h : vectors.length ≠ labels.length) :
    FaissIndexCreator.create c name vectors labels n_train save_dir =
      ⟨.error .assertionError, []⟩ := by
  unfold FaissIndexCreator.create
  by_cases h0 : isFloat32Matrix vectors = true
  · rw [if_neg (not_not_intro h0), if_pos h]
  · rw [if_pos h0]

theorem create_length_mismatch_fails_without_writes_witness :
    (([[(1 : Rat), 2]] : List (List Rat)).length ≠ ([] : List String).length) ∧
    FaissIndexCreator.create ⟨"Flat", true⟩ "idx" [[1, 2]] [] none "/d" =
      ⟨.error .assertionError, []⟩ :=
  ⟨by decide,
    create_length_mismatch_fails_without_writes _ _ _ _ _ _ (by decide)⟩

/-- Claim C2 (code-bug evidence): a target selector that resolves to an
empty set of indexes does not yield an empty result list — with the
identifiers A.1, A.2, B.1 available, resolving the selector Z succeeds with
the empty list, and the search endpoint then raises `TypeError`, because
`reduce(add, ...)` (src/main.py line 45) has no initializer and its
iterable is empty. -/
theorem empty_target_resolution_raises_typeError :
    (IndexStorage.get [] ⟨"dir", ["A.1", "A.2", "B.1"]⟩ "Z" ⟨0, []⟩ =
      .ok ([], ⟨0, []⟩)) ∧
    serveVectorQuery [] ⟨"dir", ["A.1", "A.2", "B.1"]⟩ (fun _ _ _ => [])
        "Z" [1] 10 ⟨0, []⟩ = .error .typeError := by
  exact ⟨by decide, by decide⟩

/-- Claim C3 (code-bug evidence): a query vector whose length differs from
the target index's trained dimensionality is not rejected — `FaissIndex.search`
performs no dimensionality check and hands the vector straight to the
backend.  Here the backend is trained for 2 dimensions, the query has
3 components, and the search still returns the backend's answer instead of
a client error. -/
theorem dims_mismatch_query_passed_to_backend :
    ((⟨"idx", ⟨2, fun _ _ => [(0, 5)]⟩, fun _ => "doc0"⟩ :
        FaissIndex).backend.d ≠ ([(3 : Rat), 4, 5] : List Rat).length) ∧
    FaissIndex.search ⟨"idx", ⟨2, fun _ _ => [(0, 5)]⟩, fun _ => "doc0"⟩
        [3, 4, 5] 10 = [("doc0", 5)] ∧
    searchVector [⟨"idx", ⟨2, fun _ _ => [(0, 5)]⟩, fun _ => "doc0"⟩]
        [3, 4, 5] 10 = .ok [("doc0", 5)] := by
  refine ⟨by decide, rfl, ?_⟩
  simp [searchVector, reduceAdd, FaissIndex.search]

/-- Claim C4: for a non-empty list of target indexes, the vector search
returns the concatenation of the per-index result lists, stably sorted in
ascending score order (ties keep their input order), truncated to the first
`n` entries; hence the output length is `min n (number of candidates)`. -/
theorem vector_search_merge_sorted_truncated (targets : List FaissIndex)
    (qvec : List Rat) (n : Nat) (h : targets ≠ []) :
    ∃ out sortedAll,
      searchVector targets qvec n = .ok out ∧
      sortedAll.Perm (allCandidates targets qvec n) ∧
      sortedAll.Pairwise (fun a b : String × Rat => a.2 ≤ b.2) ∧
      (∀ a b : String × Rat,
        List.Sublist [a, b] (allCandidates targets qvec n) →
        a.2 = b.2 → List.Sublist [a, b] sortedAll) ∧
      out = sortedAll.take n ∧
      out.length = min n (allCandidates targets qvec n).length := by
  have hmap : targets.map (fun idx => FaissIndex.search idx qvec n) ≠ [] := by
    simpa using h
  have hsv : searchVector targets qvec n =
      .ok (((allCandidates targets qvec n).mergeSort scoreLE).take n) := by
    unfold searchVector
    rw [reduceAdd_ok_flatten _ hmap]
    rfl
  refine ⟨_, (allCandidates targets qvec n).mergeSort scoreLE,
    hsv, List.mergeSort_perm _ _, ?_, ?_, rfl, ?_⟩
  · exact (List.sorted_mergeSort scoreLE_trans scoreLE_total _).imp
      (fun hab => by simpa [scoreLE] using hab)
  · intro a b hsub heq
    exact List.pair_sublist_mergeSort scoreLE_trans scoreLE_total
      (by simp [scoreLE, heq]) hsub
  · simp

theorem vector_search_merge_sorted_truncated_witness :
    (([⟨"w", ⟨2, fun _ _ => [(0, (7 : Rat))]⟩, fun _ => "w0"⟩] :
        List FaissIndex) ≠ []) ∧
    (∃ out sortedAll,
      searchVector [⟨"w", ⟨2, fun _ _ => [(0, (7 : Rat))]⟩, fun _ => "w0"⟩]
          [1, 2] 3 = .ok out ∧
      sortedAll.Perm (allCandidates
        [⟨"w", ⟨2, fun _ _ => [(0, (7 : Rat))]⟩, fun _ => "w0"⟩] [1, 2] 3) ∧
      sortedAll.Pairwise (fun a b : String × Rat => a.2 ≤ b.2) ∧
      (∀ a b : String × Rat,
        List.Sublist [a, b] (allCandidates
          [⟨"w", ⟨2, fun _ _ => [(0, (7 : Rat))]⟩, fun _ => "w0"⟩] [1, 2] 3) →
        a.2 = b.2 → List.Sublist [a, b] sortedAll) ∧
      out = sortedAll.take 3 ∧
      out.length = min 3 (allCandidates
        [⟨"w", ⟨2, fun _ _ => [(0, (7 : Rat))]⟩, fun _ => "w0"⟩]
          [1, 2] 3).length) :=
  ⟨List.cons_ne_nil _ _,
    vector_search_merge_sorted_truncated _ [1, 2] 3 (List.cons_ne_nil _ _)⟩

/-- Claim C5: `IndexStorage.get` resolves a string to exactly one index per
available identifier that starts with it — exact names and longer
identifiers sharing the leading string go through the same filter — and when
nothing matches it returns an empty list, never an error, leaving the state
untouched. -/
theorem get_resolves_every_leading_match (fs : FileSys) (st : IndexStorage)
    (p : String) (s : PState)
    (h : ∀ id ∈ st._available.filter (fun i => strStartsWith i p),
      loadableId fs st._folder s id = true) :
    (∃ insts s2, IndexStorage.get fs st p s = .ok (insts, s2) ∧
      insts.length =
        (st._available.filter (fun i => strStartsWith i p)).length) ∧
    ((st._available.filter (fun i => strStartsWith i p)) = [] →
      IndexStorage.get fs st p s = .ok ([], s)) := by
  constructor
  · exact getMany_ok_of_loadable fs st._folder _ s h
  · intro hnil
    unfold IndexStorage.get
    rw [hnil]
    rfl

theorem get_resolves_every_leading_match_witness :
    (∀ id ∈ ((⟨"dir", ["A.1", "A.2", "B.1"]⟩ :
        IndexStorage)._available.filter (fun i => strStartsWith i "A")),
      loadableId
        [("dir", "A.1.faiss"), ("dir", "A.1.metadata.json"),
          ("dir", "A.2.faiss"), ("dir", "A.2.metadata.json"),
          ("dir", "B.1.faiss"), ("dir", "B.1.metadata.json")]
        (⟨"dir", ["A.1", "A.2", "B.1"]⟩ : IndexStorage)._folder
        ⟨0, []⟩ id = true) ∧
    ((∃ insts s2, IndexStorage.get
        [("dir", "A.1.faiss"), ("dir", "A.1.metadata.json"),
          ("dir", "A.2.faiss"), ("dir", "A.2.metadata.json"),
          ("dir", "B.1.faiss"), ("dir", "B.1.metadata.json")]
        ⟨"dir", ["A.1", "A.2", "B.1"]⟩ "A" ⟨0, []⟩ = .ok (insts, s2) ∧
      insts.length = ((⟨"dir", ["A.1", "A.2", "B.1"]⟩ :
        IndexStorage)._available.filter
          (fun i => strStartsWith i "A")).length) ∧
    (((⟨"dir", ["A.1", "A.2", "B.1"]⟩ : IndexStorage)._available.filter
        (fun i => strStartsWith i "A")) = [] →
      IndexStorage.get
        [("dir", "A.1.faiss"), ("dir", "A.1.metadata.json"),
          ("dir", "A.2.faiss"), ("dir", "A.2.metadata.json"),
          ("dir", "B.1.faiss"), ("dir", "B.1.metadata.json")]
        ⟨"dir", ["A.1", "A.2", "B.1"]⟩ "A" ⟨0, []⟩ = .ok ([], ⟨0, []⟩))) :=
  ⟨by decide,
    get_resolves_every_leading_match
      [("dir", "A.1.faiss"), ("dir", "A.1.metadata.json"),
        ("dir", "A.2.faiss"), ("dir", "A.2.metadata.json"),
        ("dir", "B.1.faiss"), ("dir", "B.1.metadata.json")]
      ⟨"dir", ["A.1", "A.2", "B.1"]⟩ "A" ⟨0, []⟩ (by decide)⟩

/-- Claim C6: resolving the same identifier twice yields the same index
instance by identity: a first successful `_get_one_index` leaves the loaded
object in the cache, and the second call returns exactly that instance with
the process state unchanged — it never performs a second load. -/
theorem get_one_index_idempotent (fs : FileSys) (folder id : String)
    (s : PState) (inst : Nat) (s1 : PState)
    (h : _get_one_index fs folder id s = .ok (inst, s1)) :
    _get_one_index fs folder id s1 = .ok (inst, s1) := by
  unfold _get_one_index
  rw [getOne_ok_lookup h]

theorem get_one_index_idempotent_witness :
    (_get_one_index [("d", "x.faiss"), ("d", "x.metadata.json")] "d" "x"
        ⟨0, []⟩ = .ok (0, ⟨1, [("x", 0)]⟩)) ∧
    _get_one_index [("d", "x.faiss"), ("d", "x.metadata.json")] "d" "x"
        ⟨1, [("x", 0)]⟩ = .ok (0, ⟨1, [("x", 0)]⟩) :=
  ⟨by decide,
    get_one_index_idempotent [("d", "x.faiss"), ("d", "x.metadata.json")]
      "d" "x" ⟨0, []⟩ 0 ⟨1, [("x", 0)]⟩ (by decide)⟩

/-- Claim C8 (code-bug evidence): the per-backend enable "flags" are raw
environment strings tested for Python truthiness, so the documented
disabling value "0" — a non-empty string — still enables a backend kind:
with both flags set to "0" both the `.faiss` and the `.ann` file contribute
identifiers, while only the empty string disables. -/
theorem discover_flag_zero_still_enables :
    pyTruthy "0" = true ∧
    discoverIndexes ["x.faiss", "y.ann"] "0" "0" = ["x", "y"] ∧
    discoverIndexes ["x.faiss", "y.ann"] "" "" = [] := by
  decide

set_option linter.unusedVariables false in
/-- Claim C9: when an identifier's backend file resolves to its `.ann` file
(no `.faiss` sibling exists), `_get_from_disk` always raises: line 76 of
src/core/storage.py evaluates `AnnoyIndexReader()`, whose `__init__`
requires the positional arguments `dims` and `metric`, so the construction
raises `TypeError` and no Annoy-backed index can ever be loaded or served
through this registry. -/
theorem annoy_backed_load_always_raises (fs : FileSys) (folder id : String)
    (s : PState)
    (hfaiss : fsHas fs folder (id ++ ".faiss") = false)
    (hann : fsHas fs folder (id ++ ".ann") = true) :
    _get_from_disk fs folder id s = .error .typeError := by
  unfold _get_from_disk
  simp [hfaiss]

theorem annoy_backed_load_always_raises_witness :
    (fsHas [("d", "y.ann")] "d" ("y" ++ ".faiss") = false) ∧
    (fsHas [("d", "y.ann")] "d" ("y" ++ ".ann") = true) ∧
    _get_from_disk [("d", "y.ann")] "d" "y" ⟨0, []⟩ = .error .typeError :=
  ⟨by decide, by decide,
    annoy_backed_load_always_raises [("d", "y.ann")] "d" "y" ⟨0, []⟩
      (by decide) (by decide)⟩

/-- Claim C10: the cache is one class-level dict shared by every
`IndexStorage` instance: once any instance has cached an identifier, any
other instance — including one constructed over a different folder —
returns that same cached object for the identifier, with the process state
unchanged, instead of loading from its own directory. -/
theorem cache_shared_across_storage_instances (fs : FileSys)
    (st1 st2 : IndexStorage) (id : String) (s : PState) (inst : Nat)
    (s1 : PState)
    (h : _get_one_index fs st1._folder id s = .ok (inst, s1)) :
    _get_one_index fs st2._folder id s1 = .ok (inst, s1) := by
  unfold _get_one_index
  rw [getOne_ok_lookup h]

theorem cache_shared_across_storage_instances_witness :
    (_get_one_index
        [("d1", "x.faiss"), ("d1", "x.metadata.json"),
          ("d2", "x.faiss"), ("d2", "x.metadata.json")]
        (⟨"d1", ["x"]⟩ : IndexStorage)._folder "x" ⟨0, []⟩ =
      .ok (0, ⟨1, [("x", 0)]⟩)) ∧
    _get_one_index
        [("d1", "x.faiss"), ("d1", "x.metadata.json"),
          ("d2", "x.faiss"), ("d2", "x.metadata.json")]
        (⟨"d2", ["x"]⟩ : IndexStorage)._folder "x" ⟨1, [("x", 0)]⟩ =
      .ok (0, ⟨1, [("x", 0)]⟩) :=
  ⟨by decide,
    cache_shared_across_storage_instances
      [("d1", "x.faiss"), ("d1", "x.metadata.json"),
        ("d2", "x.faiss"), ("d2", "x.metadata.json")]
      ⟨"d1", ["x"]⟩ ⟨"d2", ["x"]⟩ "x" ⟨0, []⟩ 0 ⟨1, [("x", 0)]⟩
      (by decide)⟩

end Pqai
